import Mathlib

/-!
A shallow embedding of the authN repository's core authentication logic:
the token layer (`TokenService.ts`), the session layer (`SessionService`),
the orchestrator (`AuthService`), and the HTTP OAuth callback route.

Modelling conventions:
* `crypto.randomUUID()` is modelled by a fresh-counter `nextUuid` threaded
  through the state; UUIDs are natural numbers.  Freshness of generated
  UUIDs (the property the code relies on) is captured by the well-formedness
  invariant `WF` below.
* Timestamps are natural numbers counted in seconds.  The source mixes
  milliseconds (`Date.now()`) and seconds (`Math.floor(Date.now()/1000)`);
  the factor of 1000 divides out uniformly and no claim depends on it.
* A JWT string is modelled by the inductive `Token`: either a well-formed
  token signed with some secret, or a malformed string.  `jwtVerify` mirrors
  the `jsonwebtoken` library's `verify`: it checks the signature (secret
  equality in the model), the issuer and audience when those options are
  supplied, the `exp` claim (expired when `now ≥ exp`) and the `nbf` claim
  (rejected while `now < nbf`).
* `Record<string, unknown>` metadata maps are modelled as association lists
  of string pairs; nested objects are flattened.  No claim inspects the
  metadata contents beyond equality.
-/

namespace AuthN

abbrev UUID := Nat

abbrev Metadata := List (String × String)

inductive TokenType where
  | access
  | refresh
deriving DecidableEq, Repr

/-- Configuration of `TokenService` (`JWTConfig` in `domain/types`).
TTLs are in seconds, as in the source. -/
structure JWTConfig where
  secret : String
  issuer : String
  audience : String
  accessTokenTTL : Nat
  refreshTokenTTL : Nat
deriving DecidableEq, Repr

/-- The payload carried inside a signed JWT (the fields `TokenService`
signs: registered claims plus the custom `email`/`sessionId`/`type`/
`roles`/`permissions`/`metadata` claims). -/
structure JWTPayload where
  sub : UUID
  email : String
  sessionId : UUID
  roles : List String
  permissions : List String
  metadata : Metadata
  type : TokenType
  iss : String
  aud : String
  iat : Nat
  exp : Nat
  nbf : Nat
  jti : UUID
deriving DecidableEq, Repr

/-- A JWT string: either the compact encoding of `payload` signed with
`secret`, or a string that is not a well-formed signed token at all. -/
inductive Token where
  | signed (payload : JWTPayload) (secret : String)
  | malformed (s : String)
deriving DecidableEq, Repr

/-- `jsonwebtoken`'s `jwt.verify(token, secret, {issuer?, audience?})`:
checks the signature, the issuer/audience when those options are given,
that the token is not expired (`TokenExpiredError` when `now ≥ exp`) and
not used before its `nbf` (`NotBeforeError` while `now < nbf`).
Returns the decoded payload on success, `none` on any failure. -/
def jwtVerify (secret : String) (issuerOpt audienceOpt : Option String)
    (now : Nat) : Token → Option JWTPayload
  | .malformed _ => none
  | .signed p s =>
    if s = secret
        ∧ (∀ i ∈ issuerOpt, p.iss = i)
        ∧ (∀ a ∈ audienceOpt, p.aud = a)
        ∧ now < p.exp
        ∧ p.nbf ≤ now
    then some p else none

/-- The decoded claims returned to callers (`JWTClaims` in `domain/types`). -/
structure JWTClaims where
  sub : UUID
  email : String
  sessionId : UUID
  roles : List String
  permissions : List String
  metadata : Metadata
  type : TokenType
  iss : String
  aud : String
  iat : Nat
  exp : Nat
  nbf : Nat
  jti : UUID
deriving DecidableEq, Repr

/-- `TokenService.mapPayloadToClaims`: copies each field of the verified
payload into the claims record (the `?? []` defaults of the source are
already reflected by the model's payload fields being total). -/
def mapPayloadToClaims (p : JWTPayload) : JWTClaims :=
  { sub := p.sub
    email := p.email
    sessionId := p.sessionId
    roles := p.roles
    permissions := p.permissions
    metadata := p.metadata
    type := p.type
    iss := p.iss
    aud := p.aud
    iat := p.iat
    exp := p.exp
    nbf := p.nbf
    jti := p.jti }

/-- Argument record of `TokenService.signAccessToken`. -/
structure SignAccessPayload where
  userId : UUID
  email : String
  sessionId : UUID
  roles : Option (List String)
  permissions : Option (List String)
  metadata : Option Metadata
deriving DecidableEq, Repr

/-- Argument record of `TokenService.signRefreshToken`. -/
structure SignRefreshPayload where
  userId : UUID
  email : String
  sessionId : UUID
deriving DecidableEq, Repr

/-- `TokenService.signAccessToken`: signs `type = access` claims with a
fresh `jti`, `nbf = iat = now` and `exp = now + accessTokenTTL`. -/
def signAccessToken (cfg : JWTConfig) (now : Nat) (jti : UUID)
    (p : SignAccessPayload) : Token :=
  .signed
    { sub := p.userId
      email := p.email
      sessionId := p.sessionId
      roles := p.roles.getD []
      permissions := p.permissions.getD []
      metadata := p.metadata.getD []
      type := .access
      iss := cfg.issuer
      aud := cfg.audience
      iat := now
      exp := now + cfg.accessTokenTTL
      nbf := now
      jti := jti }
    cfg.secret

/-- `TokenService.signRefreshToken`: signs `type = refresh` claims with a
fresh `jti`, `nbf = iat = now` and `exp = now + refreshTokenTTL`; carries
no roles/permissions/metadata. -/
def signRefreshToken (cfg : JWTConfig) (now : Nat) (jti : UUID)
    (p : SignRefreshPayload) : Token :=
  .signed
    { sub := p.userId
      email := p.email
      sessionId := p.sessionId
      roles := []
      permissions := []
      metadata := []
      type := .refresh
      iss := cfg.issuer
      aud := cfg.audience
      iat := now
      exp := now + cfg.refreshTokenTTL
      nbf := now
      jti := jti }
    cfg.secret

/-- `TokenService.verifyAccessToken`: `jwt.verify` with the configured
issuer and audience, then requires `type = access`; `none` on any
failure (the source catches every exception). -/
def verifyAccessToken (cfg : JWTConfig) (now : Nat) (tok : Token) :
    Option JWTClaims :=
  match jwtVerify cfg.secret (some cfg.issuer) (some cfg.audience) now tok with
  | none => none
  | some p => if p.type = .access then some (mapPayloadToClaims p) else none

/-- `TokenService.verifyRefreshToken`: identical but requires
`type = refresh`. -/
def verifyRefreshToken (cfg : JWTConfig) (now : Nat) (tok : Token) :
    Option JWTClaims :=
  match jwtVerify cfg.secret (some cfg.issuer) (some cfg.audience) now tok with
  | none => none
  | some p => if p.type = .refresh then some (mapPayloadToClaims p) else none

/-- `TokenService.decode`: verifies signature/issuer/audience but enforces
no particular `type`. -/
def decodeToken (cfg : JWTConfig) (now : Nat) (tok : Token) :
    Option JWTClaims :=
  (jwtVerify cfg.secret (some cfg.issuer) (some cfg.audience) now tok).map
    mapPayloadToClaims

/-- `TokenService.isExpired`: runs `jwt.verify(token, secret)` — note:
with no issuer/audience options — and returns `true` whenever that
verification fails for any reason, `false` when it succeeds. -/
def isExpired (cfg : JWTConfig) (now : Nat) (tok : Token) : Bool :=
  (jwtVerify cfg.secret none none now tok).isNone

/-! ## Data model: users, sessions, and the system state -/

/-- The `User` entity (id, normalized email, password hash, timestamps). -/
structure User where
  id : UUID
  email : String
  passwordHash : String
  createdAt : Nat
  updatedAt : Nat
deriving DecidableEq, Repr

/-- The `Session` entity persisted through `ISessionRepository`. -/
structure Session where
  id : UUID
  userId : UUID
  email : String
  accessToken : Token
  refreshToken : Token
  accessTokenExpiresAt : Nat
  refreshTokenExpiresAt : Nat
  roles : List String
  permissions : List String
  metadata : Metadata
  createdAt : Nat
deriving DecidableEq, Repr

/-- The data `AuthService.getOAuthUrl` stores per issued OAuth state value
(`OAuthStateData` in `AuthService.ts`). -/
structure OAuthStateData where
  provider : String
  redirectUri : String
  timestamp : Nat
deriving DecidableEq, Repr

/-- The mutable state the core touches: the external user and session
stores (modelled as lists, saves append), the process-local
`oauthStates` map of `AuthService`, the fresh-UUID source and the clock. -/
structure AuthState where
  users : List User
  sessions : List Session
  oauthStates : List (UUID × OAuthStateData)
  nextUuid : Nat
  now : Nat
deriving Repr

/-- User store `findById`. -/
def findUserById (st : AuthState) (id : UUID) : Option User :=
  st.users.find? (fun u => u.id == id)

/-- User store `findByEmail`. -/
def findUserByEmail (st : AuthState) (email : String) : Option User :=
  st.users.find? (fun u => u.email == email)

/-- `Bun.password.hash`: the external memory-hard password-hash primitive,
opaque to the core; modelled as an injective tagging function. -/
def hashPassword (plain : String) : String :=
  "argon2id$" ++ plain

/-- `createUser` (mappers): draws a fresh UUID for the user id,
normalizes the email with `toLowerCase().trim()` and hashes the
password.  The normalization is modelled as the identity: emails in this
development are already lower-case and trimmed, and no claim depends on
case or whitespace normalization (`String.toLower`/`String.trim` do not
reduce in the kernel). -/
def createUser (st : AuthState) (email plainPassword : String) :
    User × AuthState :=
  let u : User :=
    { id := st.nextUuid
      email := email
      passwordHash := hashPassword plainPassword
      createdAt := st.now
      updatedAt := st.now }
  (u, { st with nextUuid := st.nextUuid + 1 })

/-- `UserJSON`: the public projection returned by `userToJSON`. -/
structure UserJSON where
  id : UUID
  email : String
  createdAt : Nat
  updatedAt : Nat
deriving DecidableEq, Repr

/-- `userToJSON` (mappers). -/
def userToJSON (u : User) : UserJSON :=
  { id := u.id
    email := u.email
    createdAt := u.createdAt
    updatedAt := u.updatedAt }

/-- `SessionJSON`: the public projection returned by `sessionToJSON`. -/
structure SessionJSON where
  id : UUID
  userId : UUID
  accessToken : Token
  accessTokenExpiresAt : Nat
  refreshToken : Token
  refreshTokenExpiresAt : Nat
  createdAt : Nat
deriving DecidableEq, Repr

/-- `sessionToJSON` (mappers). -/
def sessionToJSON (s : Session) : SessionJSON :=
  { id := s.id
    userId := s.userId
    accessToken := s.accessToken
    accessTokenExpiresAt := s.accessTokenExpiresAt
    refreshToken := s.refreshToken
    refreshTokenExpiresAt := s.refreshTokenExpiresAt
    createdAt := s.createdAt }

/-! ## SessionService -/

/-- Argument record of `SessionService.createSession`. -/
structure CreateSessionParams where
  userId : UUID
  email : String
  roles : Option (List String)
  permissions : Option (List String)
  metadata : Option Metadata
deriving DecidableEq, Repr

/-- `SessionService.createSession`: draws a fresh session id, signs an
access and a refresh token scoped to it (each with a fresh `jti`),
computes both expiries from `now` plus the configured TTLs, persists the
session and returns it. -/
def createSession (cfg : JWTConfig) (st : AuthState)
    (params : CreateSessionParams) : Session × AuthState :=
  let sessionId := st.nextUuid
  let accessToken := signAccessToken cfg st.now (st.nextUuid + 1)
    { userId := params.userId
      email := params.email
      sessionId := sessionId
      roles := params.roles
      permissions := params.permissions
      metadata := params.metadata }
  let refreshToken := signRefreshToken cfg st.now (st.nextUuid + 2)
    { userId := params.userId
      email := params.email
      sessionId := sessionId }
  let session : Session :=
    { id := sessionId
      userId := params.userId
      email := params.email
      accessToken := accessToken
      refreshToken := refreshToken
      accessTokenExpiresAt := st.now + cfg.accessTokenTTL
      refreshTokenExpiresAt := st.now + cfg.refreshTokenTTL
      roles := params.roles.getD []
      permissions := params.permissions.getD []
      metadata := params.metadata.getD []
      createdAt := st.now }
  (session,
    { st with
        sessions := st.sessions ++ [session]
        nextUuid := st.nextUuid + 3 })

/-- `SessionService.getSessionById` (session store `findById`). -/
def getSessionById (st : AuthState) (id : UUID) : Option Session :=
  st.sessions.find? (fun s => s.id == id)

/-- `SessionService.getSessionsByUserId` (session store `findByUserId`). -/
def getSessionsByUserId (st : AuthState) (userId : UUID) : List Session :=
  st.sessions.filter (fun s => s.userId == userId)

/-- `SessionService.invalidateSession` (session store `delete`). -/
def invalidateSession (st : AuthState) (sessionId : UUID) : AuthState :=
  { st with sessions := st.sessions.filter (fun s => s.id != sessionId) }

/-- `SessionService.invalidateAllUserSessions` (session store
`deleteByUserId`). -/
def invalidateAllUserSessions (st : AuthState) (userId : UUID) : AuthState :=
  { st with sessions := st.sessions.filter (fun s => s.userId != userId) }

/-- `SessionService.refreshSession`: deletes the old session record, then
creates a brand-new session carrying forward userId/email/roles/
permissions/metadata. -/
def refreshSession (cfg : JWTConfig) (st : AuthState) (s : Session) :
    Session × AuthState :=
  createSession cfg (invalidateSession st s.id)
    { userId := s.userId
      email := s.email
      roles := some s.roles
      permissions := some s.permissions
      metadata := some s.metadata }

/-! ## Well-formedness

The code draws session ids, token ids and OAuth state values from
`crypto.randomUUID()` and relies on those values being fresh.  In the
model the UUID source is the counter `nextUuid`; `WF` states that every
UUID already stored is below the counter, so a freshly drawn UUID differs
from every stored one. -/

/-- Every `jti` inside a signed token is below `n`. -/
def tokenFreshBelow (t : Token) (n : Nat) : Bool :=
  match t with
  | .signed p _ => p.jti < n
  | .malformed _ => true

/-- A stored session only holds UUIDs below `n`. -/
def sessionFreshBelow (s : Session) (n : Nat) : Bool :=
  s.id < n && tokenFreshBelow s.accessToken n && tokenFreshBelow s.refreshToken n

/-- Well-formedness of the system state: all stored UUIDs are below the
fresh counter. -/
def WF (st : AuthState) : Bool :=
  st.sessions.all (fun s => sessionFreshBelow s st.nextUuid)
    && st.oauthStates.all (fun e => e.1 < st.nextUuid)
    && st.users.all (fun u => u.id < st.nextUuid)

/-! ## Providers and the registry -/

/-- The error a provider's `authenticate` may throw.  The only property of
that error the orchestrator inspects is whether its message contains the
substring `"Invalid"` (`AuthService.login`'s catch block); it is modelled
as a Boolean field. -/
structure ProviderError where
  messageHasInvalid : Bool
deriving DecidableEq, Repr

/-- The credential payloads of `LoginDTO.credentials`. -/
inductive Credentials where
  | emailPassword (email password : String)
  | oauth (code redirectUri : String) (codeVerifier : Option String)
deriving DecidableEq, Repr

/-- Outbound network calls an OAuth provider makes
(`exchangeCode` posts to the provider's token URL, `getUserInfo` fetches
the profile). -/
inductive NetCall where
  | exchangeCode (provider code redirectUri : String)
  | getUserInfo (provider accessToken : String)
deriving DecidableEq, Repr

/-- The provider-neutral normalized identity (`AuthenticatedUser`). -/
structure AuthenticatedUser where
  id : Option UUID
  email : String
  emailVerified : Bool
  name : Option String
  picture : Option String
  provider : String
  providerUserId : Option String
  metadata : Metadata
deriving DecidableEq, Repr

/-- A registered credential provider (`IAuthProvider` /
`IOAuthProvider`): an `authenticate` capability that also reports the
network calls it performed, and the optional authorization-URL capability
of OAuth providers (taking the redirect URI and the state value). -/
structure ProviderImpl where
  method : String
  authenticate : Credentials → Except ProviderError AuthenticatedUser × List NetCall
  getAuthorizationUrl : Option (String → UUID → String)

/-- The provider registry, a lookup table keyed by method name
(`ProviderRegistry` over a `Map`, whose keys are unique). -/
abbrev Registry := List ProviderImpl

/-- `ProviderRegistry.get`. -/
def registryGet (reg : Registry) (method : String) : Option ProviderImpl :=
  reg.find? (fun p => p.method == method)

/-! ## AuthService -/

/-- The `AppError` subclasses `AuthService` throws, plus the route-level
validation rejection of the HTTP adapter. -/
inductive AuthErr where
  | userAlreadyExists
  | invalidCredentials
  | invalidToken
  | sessionNotFound
  | userNotFound
  | badRequest
  | oauthProviderError
  | providerFailure (e : ProviderError)
  | validationError
deriving DecidableEq, Repr

/-- Whether the error's message contains `"Invalid"`, per the concrete
message strings in `utils/errors` (`InvalidCredentialsError` is
"Invalid email or password", `InvalidTokenError` is "Invalid or malformed
token", `UserNotFoundError` is "User ... not found", and so on). -/
def errMessageHasInvalid : AuthErr → Bool
  | .invalidCredentials => true
  | .invalidToken => true
  | .providerFailure e => e.messageHasInvalid
  | _ => false

/-- `RegisterDTO`. -/
structure RegisterDTO where
  email : String
  password : String
  roles : Option (List String)
  permissions : Option (List String)
  metadata : Option Metadata
deriving DecidableEq, Repr

/-- `LoginDTO`. -/
structure LoginDTO where
  method : String
  credentials : Credentials
deriving DecidableEq, Repr

/-- `AuthResult`: public user plus public session projection. -/
structure AuthResult where
  user : UserJSON
  session : SessionJSON
deriving DecidableEq, Repr

/-- `TokenValidationResult`. -/
structure TokenValidationResult where
  valid : Bool
  claims : Option JWTClaims
  user : Option UserJSON
deriving DecidableEq, Repr

/-- `AuthService.register`: rejects an already-registered email,
otherwise creates the user (hashing the password), saves it, creates a
session with the DTO's roles/permissions/metadata and returns both. -/
def register (cfg : JWTConfig) (st : AuthState) (dto : RegisterDTO) :
    Except AuthErr AuthResult × AuthState :=
  match findUserByEmail st dto.email with
  | some _ => (.error .userAlreadyExists, st)
  | none =>
    let createdUser := createUser st dto.email dto.password
    let user := createdUser.1
    let st₂ := { createdUser.2 with users := createdUser.2.users ++ [user] }
    let created := createSession cfg st₂
      { userId := user.id
        email := user.email
        roles := dto.roles
        permissions := dto.permissions
        metadata := dto.metadata }
    (.ok { user := userToJSON user, session := sessionToJSON created.1 },
      created.2)

/-- The metadata object `createOrUpdateUserSession` builds for the new
session: provider fields first, then the spread of the provider's own
metadata (modelled as an association list; later entries of a JS spread
are appended at the end). -/
def loginSessionMetadata (au : AuthenticatedUser) : Metadata :=
  ("provider", au.provider)
    :: ("providerUserId", au.providerUserId.getD "")
    :: ("name", au.name.getD "")
    :: ("picture", au.picture.getD "")
    :: au.metadata

/-- The user-resolution half of `AuthService.createOrUpdateUserSession`:
a provider-supplied id must already exist (no silent creation); an email
is reused when known, otherwise a placeholder user with a random
unusable password is created and saved. -/
def resolveLoginUser (st : AuthState) (au : AuthenticatedUser) :
    Except AuthErr (User × AuthState) :=
  match au.id with
  | some uid =>
    match findUserById st uid with
    | none => .error .userNotFound
    | some u => .ok (u, st)
  | none =>
    match findUserByEmail st au.email with
    | some u => .ok (u, st)
    | none =>
      -- placeholder user: `crypto.randomUUID()` as the unusable password
      let plainPassword := toString st.nextUuid
      let st₀ := { st with nextUuid := st.nextUuid + 1 }
      let created := createUser st₀ au.email plainPassword
      .ok (created.1, { created.2 with users := created.2.users ++ [created.1] })

/-- `AuthService.createOrUpdateUserSession`: resolves the local user,
then deletes all of the user's existing sessions (single-session policy)
and creates the new session, forwarding only metadata (no roles or
permissions). -/
def createOrUpdateUserSession (cfg : JWTConfig) (st : AuthState)
    (au : AuthenticatedUser) : Except AuthErr AuthResult × AuthState :=
  match resolveLoginUser st au with
  | .error e => (.error e, st)
  | .ok (user, st₁) =>
    -- Delete existing sessions (single session policy)
    let st₂ := invalidateAllUserSessions st₁ user.id
    let created := createSession cfg st₂
      { userId := user.id
        email := user.email
        roles := none
        permissions := none
        metadata := some (loginSessionMetadata au) }
    (.ok { user := userToJSON user, session := sessionToJSON created.1 },
      created.2)

/-- `AuthService.login`: resolves the provider (rejecting unsupported
methods), delegates to its `authenticate`, and on success hands the
normalized identity to `createOrUpdateUserSession`.  Any error thrown
inside the `try` block whose message contains `"Invalid"` is replaced by
`InvalidCredentialsError`; other errors are re-thrown unchanged.  Also
returns the network calls the provider performed. -/
def login (cfg : JWTConfig) (reg : Registry) (st : AuthState)
    (dto : LoginDTO) :
    Except AuthErr AuthResult × AuthState × List NetCall :=
  match registryGet reg dto.method with
  | none => (.error .badRequest, st, [])
  | some p =>
    match p.authenticate dto.credentials with
    | (.error e, calls) =>
      if e.messageHasInvalid then (.error .invalidCredentials, st, calls)
      else (.error (.providerFailure e), st, calls)
    | (.ok au, calls) =>
      match createOrUpdateUserSession cfg st au with
      | (.ok r, st') => (.ok r, st', calls)
      | (.error err, st') =>
        if errMessageHasInvalid err then (.error .invalidCredentials, st', calls)
        else (.error err, st', calls)

/-- `AuthService.loginWithEmailPassword`. -/
def loginWithEmailPassword (cfg : JWTConfig) (reg : Registry)
    (st : AuthState) (email password : String) :
    Except AuthErr AuthResult × AuthState × List NetCall :=
  login cfg reg st
    { method := "email_password"
      credentials := .emailPassword email password }

/-- `AuthService.loginWithOAuth`. -/
def loginWithOAuth (cfg : JWTConfig) (reg : Registry) (st : AuthState)
    (provider code redirectUri : String) :
    Except AuthErr AuthResult × AuthState × List NetCall :=
  login cfg reg st
    { method := provider
      credentials := .oauth code redirectUri none }

/-! ## OAuth state store -/

/-- JS `Map.set`: replaces the value of an existing key in place,
otherwise appends the new entry. -/
def oauthMapSet (l : List (UUID × OAuthStateData)) (k : UUID)
    (v : OAuthStateData) : List (UUID × OAuthStateData) :=
  if l.any (fun e => e.1 == k) then
    l.map (fun e => if e.1 == k then (k, v) else e)
  else l ++ [(k, v)]

/-- `AuthService.cleanupOAuthStates`: deletes every entry older than ten
minutes (600 seconds in the model's clock). -/
def cleanupOAuthStates (l : List (UUID × OAuthStateData)) (now : Nat) :
    List (UUID × OAuthStateData) :=
  l.filter (fun e => !(e.2.timestamp < now - 600))

/-- `AuthService.getOAuthUrl`: rejects providers that are unregistered or
lack the authorization-URL capability, draws a fresh state value, stores
it bound to `(provider, redirectUri, now)`, garbage-collects stale
states, and returns the provider's authorization URL plus the state. -/
def getOAuthUrl (reg : Registry) (st : AuthState)
    (provider redirectUri : String) :
    Except AuthErr (String × UUID) × AuthState :=
  match registryGet reg provider with
  | none => (.error .oauthProviderError, st)
  | some p =>
    match p.getAuthorizationUrl with
    | none => (.error .oauthProviderError, st)
    | some urlOf =>
      let state := st.nextUuid
      let states₁ := oauthMapSet st.oauthStates state
        { provider := provider, redirectUri := redirectUri, timestamp := st.now }
      let states₂ := cleanupOAuthStates states₁ st.now
      (.ok (urlOf redirectUri state, state),
        { st with oauthStates := states₂, nextUuid := st.nextUuid + 1 })

/-- Modelled from the spec: the `consume(stateValue)` operation of the
OAuthStateStore ("must remove the entry on success — a state value is
usable exactly once").  No consuming code exists under `src/`: the
`ITokenStore` port only declares `getOAuthState`/`deleteOAuthState`, and
neither `AuthService` nor the callback route ever reads the stored
state.  `consume` therefore looks the value up in the store and, when
present, returns the stored data and deletes the entry; otherwise it
returns `none` and leaves the store unchanged. -/
def consumeOAuthState (st : AuthState) (v : UUID) :
    Option OAuthStateData × AuthState :=
  match st.oauthStates.find? (fun e => e.1 == v) with
  | some e =>
    (some e.2, { st with oauthStates := st.oauthStates.filter (fun e => e.1 != v) })
  | none => (none, st)

/-! ## AuthService: session management and token operations -/

/-- `AuthService.logout`: verifies the access token and, when it is
valid, invalidates the session named by its claims; silently no-ops on
an invalid token. -/
def logout (cfg : JWTConfig) (st : AuthState) (accessToken : Token) :
    AuthState :=
  match verifyAccessToken cfg st.now accessToken with
  | some claims => invalidateSession st claims.sessionId
  | none => st

/-- `AuthService.logoutAll`: invalidates every session of the user. -/
def logoutAll (st : AuthState) (userId : UUID) : AuthState :=
  invalidateAllUserSessions st userId

/-- `AuthService.refreshToken`: verifies the refresh token, requires its
session to still exist, requires its user to still exist (invalidating
the orphaned session otherwise), then rotates the session. -/
def refreshToken (cfg : JWTConfig) (st : AuthState) (tok : Token) :
    Except AuthErr AuthResult × AuthState :=
  match verifyRefreshToken cfg st.now tok with
  | none => (.error .invalidToken, st)
  | some claims =>
    match getSessionById st claims.sessionId with
    | none => (.error .sessionNotFound, st)
    | some session =>
      match findUserById st claims.sub with
      | none => (.error .userNotFound, invalidateSession st session.id)
      | some user =>
        let rotated := refreshSession cfg st session
        (.ok { user := userToJSON user, session := sessionToJSON rotated.1 },
          rotated.2)

/-- `AuthService.validateAccessToken`: verifies the token and further
requires that its session still exists in the store; on success also
looks the user up. -/
def validateAccessToken (cfg : JWTConfig) (st : AuthState) (tok : Token) :
    TokenValidationResult :=
  match verifyAccessToken cfg st.now tok with
  | none => { valid := false, claims := none, user := none }
  | some claims =>
    match getSessionById st claims.sessionId with
    | none => { valid := false, claims := none, user := none }
    | some _ =>
      { valid := true
        claims := some claims
        user := (findUserById st claims.sub).map userToJSON }

/-- `AuthService.extractClaims`: thin verify-and-return. -/
def extractClaims (cfg : JWTConfig) (st : AuthState) (tok : Token) :
    Option JWTClaims :=
  verifyAccessToken cfg st.now tok

/-- `AuthService.getMe`: verifies the token and looks the user up by the
token's subject — with no session-existence check. -/
def getMe (cfg : JWTConfig) (st : AuthState) (tok : Token) : Option User :=
  match verifyAccessToken cfg st.now tok with
  | none => none
  | some claims => findUserById st claims.sub

/-! ## GoogleAuthProvider and the HTTP OAuth callback route -/

/-- The token response of the provider's authorization-code exchange
(`OAuthTokens`). -/
structure OAuthTokens where
  accessToken : String
  refreshToken : Option String
  idToken : Option String
  expiresIn : Nat
  tokenType : String
  scope : Option String
deriving DecidableEq, Repr

/-- The profile returned by the provider's user-info endpoint
(`OAuthUserInfo`; the raw JSON body is abstracted away). -/
structure OAuthUserInfo where
  id : String
  email : String
  emailVerified : Bool
  name : Option String
  picture : Option String
deriving DecidableEq, Repr

/-- The provider's remote endpoints, as an oracle for the two `fetch`
calls `GoogleAuthProvider` makes. -/
structure OAuthNet where
  exchange : String → String → Except ProviderError OAuthTokens
  userInfo : String → Except ProviderError OAuthUserInfo

/-- `OAuthConfig` of a provider adapter. -/
structure OAuthProviderConfig where
  clientId : String
  clientSecret : String
deriving DecidableEq, Repr

/-- `GoogleAuthProvider.getAuthorizationUrl`: the Google authorization
endpoint with the client id, redirect URI and state as query parameters
(scopes and the fixed parameters abbreviated). -/
def googleAuthorizationUrl (cfg : OAuthProviderConfig)
    (redirectUri : String) (state : UUID) : String :=
  "https://accounts.google.com/o/oauth2/v2/auth?client_id=" ++ cfg.clientId
    ++ "&redirect_uri=" ++ redirectUri
    ++ "&response_type=code&scope=openid email profile&state=" ++ toString state
    ++ "&access_type=offline&prompt=consent"

/-- `GoogleAuthProvider.authenticate`: first exchanges the authorization
code at the token endpoint (a network call made unconditionally, before
anything else), then fetches the user info and returns the normalized
identity. -/
def googleAuthenticate (net : OAuthNet) (creds : Credentials) :
    Except ProviderError AuthenticatedUser × List NetCall :=
  match creds with
  | .emailPassword _ _ => (.error { messageHasInvalid := false }, [])
  | .oauth code redirectUri _ =>
    match net.exchange code redirectUri with
    | .error e => (.error e, [.exchangeCode "google" code redirectUri])
    | .ok toks =>
      match net.userInfo toks.accessToken with
      | .error e =>
        (.error e,
          [.exchangeCode "google" code redirectUri,
           .getUserInfo "google" toks.accessToken])
      | .ok info =>
        (.ok
          { id := none
            email := info.email
            emailVerified := info.emailVerified
            name := info.name
            picture := info.picture
            provider := "google"
            providerUserId := some info.id
            metadata :=
              [("raw.id", info.id),
               ("tokens.refreshToken", (toks.refreshToken).getD ""),
               ("tokens.idToken", (toks.idToken).getD "")] },
          [.exchangeCode "google" code redirectUri,
           .getUserInfo "google" toks.accessToken])

/-- The registered Google provider (`IOAuthProvider`). -/
def googleProvider (cfg : OAuthProviderConfig) (net : OAuthNet) :
    ProviderImpl :=
  { method := "google"
    authenticate := googleAuthenticate net
    getAuthorizationUrl := some (googleAuthorizationUrl cfg) }

/-- The request body of `POST /oauth/callback` (`IOAuthCredentials`):
provider, authorization code, redirect URI, the echoed state value, and
an optional PKCE verifier.  The state value is a UUID in the model. -/
structure OAuthCallbackBody where
  provider : String
  code : String
  redirectUri : String
  state : UUID
  codeVerifier : Option String
deriving DecidableEq, Repr

/-- `OAuthCredentialsSchema.validate`: the provider must be one of
google/github/apple and code and redirect URI must be non-blank strings
(the state, a UUID in the model, always renders non-blank).  Blankness
(`!s.trim()`) is modelled as emptiness: no claim uses whitespace-only
strings. -/
def oauthCallbackBodyValid (b : OAuthCallbackBody) : Bool :=
  (b.provider == "google" || b.provider == "github" || b.provider == "apple")
    && b.code != "" && b.redirectUri != ""

/-- The `POST /oauth/callback` route handler (`createAuthRoutes`):
validates the body against `OAuthCredentialsSchema` and then calls
`loginWithOAuth(provider, code, redirectUri)` — the echoed state value is
dropped and never compared against the issued states. -/
def oauthCallback (cfg : JWTConfig) (reg : Registry) (st : AuthState)
    (body : OAuthCallbackBody) :
    Except AuthErr AuthResult × AuthState × List NetCall :=
  if oauthCallbackBodyValid body then
    loginWithOAuth cfg reg st body.provider body.code body.redirectUri
  else (.error .validationError, st, [])

/-! ## Spec-side condition definitions

These follow the spec's words (not the code) and are compared against the
code-derived functions in refinement-style claims. -/

/-- Whether a token is a well-formed signed token carrying the given
`type` claim. -/
def tokenHasType (tok : Token) (ty : TokenType) : Bool :=
  match tok with
  | .signed p _ => p.type == ty
  | .malformed _ => false

/-- The rejection conditions for `verifyAccess` exactly as the claim
enumerates them: signature invalid, token expired, issuer or audience
mismatch, or embedded type claim not `access`. -/
def claimedAccessRejectCond (cfg : JWTConfig) (now : Nat) : Token → Bool
  | .malformed _ => true
  | .signed p s =>
    decide (s ≠ cfg.secret) || decide (p.exp ≤ now)
      || decide (p.iss ≠ cfg.issuer) || decide (p.aud ≠ cfg.audience)
      || decide (p.type ≠ TokenType.access)

/-- The amended rejection conditions for `verifyAccess`: the claim's
list plus "the token's not-before (`nbf`) is still in the future". -/
def specAccessRejectCond (cfg : JWTConfig) (now : Nat) : Token → Bool
  | .malformed _ => true
  | .signed p s =>
    decide (s ≠ cfg.secret) || decide (p.exp ≤ now)
      || decide (p.iss ≠ cfg.issuer) || decide (p.aud ≠ cfg.audience)
      || decide (now < p.nbf) || decide (p.type ≠ TokenType.access)

/-- The amended rejection conditions for `verifyRefresh`: same, requiring
type `refresh`. -/
def specRefreshRejectCond (cfg : JWTConfig) (now : Nat) : Token → Bool
  | .malformed _ => true
  | .signed p s =>
    decide (s ≠ cfg.secret) || decide (p.exp ≤ now)
      || decide (p.iss ≠ cfg.issuer) || decide (p.aud ≠ cfg.audience)
      || decide (now < p.nbf) || decide (p.type ≠ TokenType.refresh)

/-- The amended condition under which `isExpired` returns `true`: the
signature does not verify, or the time window has elapsed (`exp`
reached), or the token is not yet valid (`nbf` in the future) — with no
issuer or audience involvement. -/
def specIsExpiredCond (cfg : JWTConfig) (now : Nat) : Token → Bool
  | .malformed _ => true
  | .signed p s =>
    decide (s ≠ cfg.secret) || decide (p.exp ≤ now) || decide (now < p.nbf)

/-! ## Shared fixtures for witnesses and counterexamples -/

/-- A concrete token-service configuration (the source's defaults). -/
def sampleCfg : JWTConfig :=
  { secret := "test-secret"
    issuer := "authn-service"
    audience := "authn-api"
    accessTokenTTL := 900
    refreshTokenTTL := 604800 }

/-- A concrete access-token payload. -/
def samplePayload : JWTPayload :=
  { sub := 1
    email := "a@x.com"
    sessionId := 2
    roles := ["user"]
    permissions := ["read"]
    metadata := []
    type := .access
    iss := "authn-service"
    aud := "authn-api"
    iat := 0
    exp := 900
    nbf := 0
    jti := 3 }

/-- A token signed with the right secret, correct issuer and audience,
type `access`, unexpired — but with its `nbf` claim still in the
future. -/
def nbfFutureToken : Token :=
  .signed { samplePayload with nbf := 500, exp := 1000 } sampleCfg.secret

/-- A token signed with the right secret and unexpired, but whose issuer
claim does not match the configuration. -/
def issMismatchToken : Token :=
  .signed { samplePayload with iss := "evil-issuer" } sampleCfg.secret

/-- Fixtures: a Google network oracle that answers both provider calls. -/
def sampleNet : OAuthNet :=
  { exchange := fun _ _ =>
      .ok { accessToken := "g-access", refreshToken := some "g-refresh",
            idToken := some "g-id", expiresIn := 3600,
            tokenType := "Bearer", scope := none }
    userInfo := fun _ =>
      .ok { id := "g-user-1", email := "g@x.com", emailVerified := true,
            name := some "G", picture := none } }

/-- Fixtures: a Google OAuth client configuration. -/
def sampleOAuthCfg : OAuthProviderConfig :=
  { clientId := "cid", clientSecret := "csecret" }

/-- Fixtures: a registry holding the Google provider. -/
def sampleReg : Registry := [googleProvider sampleOAuthCfg sampleNet]

/-- Fixtures: an empty well-formed state. -/
def emptyState : AuthState :=
  { users := [], sessions := [], oauthStates := [], nextUuid := 0, now := 1000 }

/-- The roles claim carried inside a signed token. -/
def tokenRoles : Token → Option (List String)
  | .signed p _ => some p.roles
  | .malformed _ => none

/-- The permissions claim carried inside a signed token. -/
def tokenPermissions : Token → Option (List String)
  | .signed p _ => some p.permissions
  | .malformed _ => none

/-- Fixtures: a stored user. -/
def sampleUser : User :=
  { id := 1, email := "a@x.com", passwordHash := hashPassword "Secret123",
    createdAt := 0, updatedAt := 0 }

/-- Fixtures: parameters of the seeded session. -/
def seedParams : CreateSessionParams :=
  { userId := 1, email := "a@x.com", roles := some ["user"],
    permissions := some ["read"], metadata := none }

/-- Fixtures: a base state holding `sampleUser` and no sessions. -/
def baseState : AuthState :=
  { users := [sampleUser], sessions := [], oauthStates := [],
    nextUuid := 10, now := 1000 }

/-- Fixtures: a session created for `sampleUser` (session id 10, token
ids 11 and 12). -/
def seededSession : Session := (createSession sampleCfg baseState seedParams).1

/-- Fixtures: the state after creating `seededSession`. -/
def seededState : AuthState := (createSession sampleCfg baseState seedParams).2

/-- Fixtures: `seededState` after `logoutAll` for user 1. -/
def loggedOutState : AuthState := logoutAll seededState 1

/-- Fixtures: a test double of the email/password provider capability
(the concrete `EmailPasswordAuthProvider` is an external collaborator;
the orchestrator claims quantify over every registered provider). -/
def fixtureProvider : ProviderImpl :=
  { method := "email_password"
    authenticate := fun creds =>
      match creds with
      | .emailPassword email _ =>
        (.ok { id := none, email := email, emailVerified := true,
               name := none, picture := none, provider := "email_password",
               providerUserId := none, metadata := [] }, [])
      | .oauth _ _ _ => (.error { messageHasInvalid := true }, [])
    getAuthorizationUrl := none }

/-- Fixtures: a registry holding the email/password test double. -/
def fixtureReg : Registry := [fixtureProvider]

/-- Fixtures: an email/password login request. -/
def sampleLoginDto : LoginDTO :=
  { method := "email_password"
    credentials := .emailPassword "a@x.com" "Secret123" }

/-! ## Helper lemmas -/

theorem jwtVerify_signed_of (secret : String) (io ao : Option String)
    (now : Nat) (p : JWTPayload) (s : String)
    (h1 : s = secret) (h2 : ∀ i ∈ io, p.iss = i) (h3 : ∀ a ∈ ao, p.aud = a)
    (h4 : now < p.exp) (h5 : p.nbf ≤ now) :
    jwtVerify secret io ao now (.signed p s) = some p := by
  simp [jwtVerify, h1, h4, h5]
  exact ⟨fun i hi => h2 i (by simp [hi]), fun a ha => h3 a (by simp [ha])⟩

/-! ## Claims -/

/-- C6: For every valid signing payload p (userId, email, sessionId, and
for access tokens roles, permissions, metadata), verifying the freshly
signed token of the matching type returns claims that round-trip p:
`verifyAccess(signAccess(p))` yields claims whose subject, email,
sessionId, roles, permissions, metadata and `type = access` equal p's,
and `verifyRefresh(signRefresh(p))` likewise yields p's fields with
`type = refresh`. -/
theorem sign_verify_roundtrip (cfg : JWTConfig) (now jtiA jtiR : Nat)
    (pA : SignAccessPayload) (pR : SignRefreshPayload)
    (hA : 0 < cfg.accessTokenTTL) (hR : 0 < cfg.refreshTokenTTL) :
    verifyAccessToken cfg now (signAccessToken cfg now jtiA pA)
        = some
          { sub := pA.userId
            email := pA.email
            sessionId := pA.sessionId
            roles := pA.roles.getD []
            permissions := pA.permissions.getD []
            metadata := pA.metadata.getD []
            type := .access
            iss := cfg.issuer
            aud := cfg.audience
            iat := now
            exp := now + cfg.accessTokenTTL
            nbf := now
            jti := jtiA }
      ∧ verifyRefreshToken cfg now (signRefreshToken cfg now jtiR pR)
        = some
          { sub := pR.userId
            email := pR.email
            sessionId := pR.sessionId
            roles := []
            permissions := []
            metadata := []
            type := .refresh
            iss := cfg.issuer
            aud := cfg.audience
            iat := now
            exp := now + cfg.refreshTokenTTL
            nbf := now
            jti := jtiR } := by
  constructor
  · have h := jwtVerify_signed_of cfg.secret (some cfg.issuer)
      (some cfg.audience) now
      { sub := pA.userId
        email := pA.email
        sessionId := pA.sessionId
        roles := pA.roles.getD []
        permissions := pA.permissions.getD []
        metadata := pA.metadata.getD []
        type := .access
        iss := cfg.issuer
        aud := cfg.audience
        iat := now
        exp := now + cfg.accessTokenTTL
        nbf := now
        jti := jtiA }
      cfg.secret rfl (by simp) (by simp)
      (by simpa using hA) (Nat.le_refl now)
    simp [verifyAccessToken, signAccessToken, h, mapPayloadToClaims]
  · have h := jwtVerify_signed_of cfg.secret (some cfg.issuer)
      (some cfg.audience) now
      { sub := pR.userId
        email := pR.email
        sessionId := pR.sessionId
        roles := []
        permissions := []
        metadata := []
        type := .refresh
        iss := cfg.issuer
        aud := cfg.audience
        iat := now
        exp := now + cfg.refreshTokenTTL
        nbf := now
        jti := jtiR }
      cfg.secret rfl (by simp) (by simp)
      (by simpa using hR) (Nat.le_refl now)
    simp [verifyRefreshToken, signRefreshToken, h, mapPayloadToClaims]

/-- Witness for `sign_verify_roundtrip`: round-trip at a concrete payload
and configuration. -/
theorem sign_verify_roundtrip_witness :
    (verifyAccessToken sampleCfg 0 (signAccessToken sampleCfg 0 3
      { userId := 1, email := "a@x.com", sessionId := 2,
        roles := some ["user"], permissions := some ["read"],
        metadata := none })).isSome = true := by
  rw [(sign_verify_roundtrip sampleCfg 0 3 4
    { userId := 1, email := "a@x.com", sessionId := 2,
      roles := some ["user"], permissions := some ["read"], metadata := none }
    { userId := 1, email := "a@x.com", sessionId := 2 }
    (by decide) (by decide)).1]
  rfl

/-- C7 counterexample: at time 100, `nbfFutureToken` is rejected by
`verifyAccess` although none of the claim's enumerated conditions
(signature invalid, expired, issuer/audience mismatch, type not access)
holds — `jwt.verify` also rejects tokens whose `nbf` is in the future,
so "returns none exactly when ..." fails as stated. -/
theorem verifyAccess_reject_counterexample :
    verifyAccessToken sampleCfg 100 nbfFutureToken = none
      ∧ claimedAccessRejectCond sampleCfg 100 nbfFutureToken = false := by
  decide

/-- C7 (amended): for every input token, `verifyAccess` (a total
function — it never throws) returns none exactly when the signature is
invalid, the token is expired, the issuer or audience mismatches the
configuration, the token's `nbf` is still in the future, or the embedded
type claim is not `access`; symmetrically for `verifyRefresh` with type
`refresh`; in particular a token signed with `type = access` is rejected
by `verifyRefresh` and vice versa. -/
theorem verifyAccess_none_iff (cfg : JWTConfig) (now : Nat)
    (p : JWTPayload) (s : String) :
    verifyAccessToken cfg now (.signed p s) = none
      ↔ specAccessRejectCond cfg now (.signed p s) = true := by
  by_cases h1 : s = cfg.secret <;>
    by_cases h2 : p.iss = cfg.issuer <;>
      by_cases h3 : p.aud = cfg.audience <;>
        by_cases h4 : now < p.exp <;>
          by_cases h5 : p.nbf ≤ now <;>
            cases h6 : p.type <;>
              simp_all [verifyAccessToken, jwtVerify,
                specAccessRejectCond, mapPayloadToClaims] <;>
                rw [if_neg (by omega)]

theorem verifyRefresh_none_iff (cfg : JWTConfig) (now : Nat)
    (p : JWTPayload) (s : String) :
    verifyRefreshToken cfg now (.signed p s) = none
      ↔ specRefreshRejectCond cfg now (.signed p s) = true := by
  by_cases h1 : s = cfg.secret <;>
    by_cases h2 : p.iss = cfg.issuer <;>
      by_cases h3 : p.aud = cfg.audience <;>
        by_cases h4 : now < p.exp <;>
          by_cases h5 : p.nbf ≤ now <;>
            cases h6 : p.type <;>
              simp_all [verifyRefreshToken, jwtVerify,
                specRefreshRejectCond, mapPayloadToClaims] <;>
                rw [if_neg (by omega)]

theorem verifyRefresh_of_access_type (cfg : JWTConfig) (now : Nat)
    (p : JWTPayload) (s : String) (h : p.type = .access) :
    verifyRefreshToken cfg now (.signed p s) = none := by
  simp only [verifyRefreshToken, jwtVerify]
  split_ifs with hc
  · simp [h]
  · rfl

theorem verifyAccess_of_refresh_type (cfg : JWTConfig) (now : Nat)
    (p : JWTPayload) (s : String) (h : p.type = .refresh) :
    verifyAccessToken cfg now (.signed p s) = none := by
  simp only [verifyAccessToken, jwtVerify]
  split_ifs with hc
  · simp [h]
  · rfl

theorem verify_reject_iff (cfg : JWTConfig) (now : Nat) (tok : Token) :
    (verifyAccessToken cfg now tok = none
        ↔ specAccessRejectCond cfg now tok = true)
      ∧ (verifyRefreshToken cfg now tok = none
        ↔ specRefreshRejectCond cfg now tok = true)
      ∧ (tokenHasType tok .access = true → verifyRefreshToken cfg now tok = none)
      ∧ (tokenHasType tok .refresh = true → verifyAccessToken cfg now tok = none) := by
  cases tok with
  | malformed s =>
    simp [verifyAccessToken, verifyRefreshToken, jwtVerify,
      specAccessRejectCond, specRefreshRejectCond, tokenHasType]
  | signed p s =>
    refine ⟨verifyAccess_none_iff cfg now p s, verifyRefresh_none_iff cfg now p s,
      fun h => verifyRefresh_of_access_type cfg now p s ?_,
      fun h => verifyAccess_of_refresh_type cfg now p s ?_⟩ <;>
      simpa [tokenHasType] using h

/-- Witness for `verify_reject_iff`: a concrete `type = access` token is
rejected by `verifyRefresh`. -/
theorem verify_reject_iff_witness :
    verifyRefreshToken sampleCfg 0 (.signed samplePayload sampleCfg.secret)
      = none :=
  (verify_reject_iff sampleCfg 0
    (.signed samplePayload sampleCfg.secret)).2.2.1 (by decide)

/-- C8 counterexample: at time 100, `issMismatchToken` fails verification
(`decode` and `verifyAccess` both return none because of the issuer
mismatch), yet `isExpired` returns `false` — `isExpired` calls
`jwt.verify(token, secret)` without the issuer/audience options, so an
issuer or audience mismatch does not make it return true, contradicting
the claim's fail-closed list. -/
theorem isExpired_counterexample :
    decodeToken sampleCfg 100 issMismatchToken = none
      ∧ verifyAccessToken sampleCfg 100 issMismatchToken = none
      ∧ isExpired sampleCfg 100 issMismatchToken = false := by
  decide

/-- C8 (amended): for every input token, `isExpired` returns `true`
exactly when the signature does not verify (invalid signature or
malformed token), the token's time window has elapsed (current time has
reached the signed `exp`), or the token's `nbf` is still in the future —
and `false` otherwise; in particular it is `true` once current time
reaches `exp` and `false` before that for both token types, but issuer
and audience are not checked, so a mismatch there alone never makes it
return `true`. -/
theorem isExpired_iff (cfg : JWTConfig) (now : Nat) (tok : Token) :
    isExpired cfg now tok = specIsExpiredCond cfg now tok := by
  cases tok with
  | malformed s => rfl
  | signed p s =>
    by_cases h1 : s = cfg.secret <;>
      by_cases h4 : now < p.exp <;>
        by_cases h5 : p.nbf ≤ now <;>
          simp_all [isExpired, jwtVerify, specIsExpiredCond]

/-- Deleting every entry with key `k` makes a lookup of `k` fail. -/
theorem find?_key_filter_ne (l : List (UUID × OAuthStateData)) (k : UUID) :
    (l.filter (fun e => e.1 != k)).find? (fun e => e.1 == k) = none := by
  rw [List.find?_eq_none]
  intro x hx
  have h := List.mem_filter.mp hx
  simpa using (by simpa using h.2 : x.1 ≠ k)

/-- C1: For every OAuth state value issued by `getOAuthUrl`, exactly one
successful consume of that state value is possible: the first consume
returns the stored `OAuthState` (bound to the provider, redirect URI and
issue time) and removes the entry, a second consume attempt with the
same value returns none, and a state value that is not in the store (in
particular one that was never issued) can never be consumed
successfully. -/
theorem oauth_state_consume_once (reg : Registry) (st : AuthState)
    (provider redirectUri url : String) (stateVal : UUID) (st₁ : AuthState)
    (hWF : WF st = true)
    (h : getOAuthUrl reg st provider redirectUri = (.ok (url, stateVal), st₁)) :
    (consumeOAuthState st₁ stateVal).1
        = some { provider := provider, redirectUri := redirectUri,
                 timestamp := st.now }
      ∧ (consumeOAuthState (consumeOAuthState st₁ stateVal).2 stateVal).1 = none
      ∧ ∀ v, st₁.oauthStates.find? (fun e => e.1 == v) = none →
          (consumeOAuthState st₁ v).1 = none := by
  -- unpack the successful `getOAuthUrl` run
  cases hreg : registryGet reg provider with
  | none => simp [getOAuthUrl, hreg] at h
  | some p =>
    cases hcap : p.getAuthorizationUrl with
    | none => simp [getOAuthUrl, hreg, hcap] at h
    | some urlOf =>
      simp only [getOAuthUrl, hreg, hcap, Prod.mk.injEq, Except.ok.injEq] at h
      obtain ⟨⟨hurl, hstate⟩, hst⟩ := h
      -- every stored key is below the fresh counter
      have hkeys : ∀ e ∈ st.oauthStates, e.1 < st.nextUuid := by
        simp only [WF, Bool.and_eq_true, List.all_eq_true] at hWF
        intro e he
        simpa using hWF.1.2 e he
      have hnotstale : ¬ st.now < st.now - 600 := by omega
      -- the store after issuing: the fresh entry is appended and survives
      -- the garbage collection
      have hfind :
          (cleanupOAuthStates (oauthMapSet st.oauthStates st.nextUuid
              { provider := provider, redirectUri := redirectUri,
                timestamp := st.now }) st.now).find?
            (fun e => e.1 == st.nextUuid)
          = some (st.nextUuid,
              { provider := provider, redirectUri := redirectUri,
                timestamp := st.now }) := by
        have hany : st.oauthStates.any (fun e => e.1 == st.nextUuid) = false := by
          rw [List.any_eq_false]
          intro e he
          have := hkeys e he
          simp only [beq_iff_eq]
          exact Nat.ne_of_lt this
        rw [oauthMapSet, if_neg (by simp [hany])]
        rw [cleanupOAuthStates, List.filter_append, List.find?_append]
        have h1 : ((st.oauthStates.filter
            (fun e => !(e.2.timestamp < st.now - 600))).find?
              (fun e => e.1 == st.nextUuid)) = none := by
          rw [List.find?_eq_none]
          intro x hx
          have := hkeys x (List.mem_filter.mp hx).1
          simp only [beq_iff_eq]
          exact Nat.ne_of_lt this
        rw [h1]
        simp [hnotstale]
      subst hst
      subst hstate
      refine ⟨?_, ?_, ?_⟩
      · simp [consumeOAuthState, hfind]
      · have h2 := find?_key_filter_ne
          (cleanupOAuthStates (oauthMapSet st.oauthStates st.nextUuid
            { provider := provider, redirectUri := redirectUri,
              timestamp := st.now }) st.now) st.nextUuid
        simp only [consumeOAuthState, hfind]
        rw [h2]
      · intro v hv
        simp [consumeOAuthState, hv]

/-- Witness for `oauth_state_consume_once`: issuing on a concrete empty
state and consuming the issued value once returns the stored data. -/
theorem oauth_state_consume_once_witness :
    (consumeOAuthState
        (getOAuthUrl sampleReg emptyState "google" "https://app/cb").2 0).1
      = some { provider := "google", redirectUri := "https://app/cb",
               timestamp := 1000 } :=
  (oauth_state_consume_once sampleReg emptyState "google" "https://app/cb"
    (googleAuthorizationUrl sampleOAuthCfg "https://app/cb" 0) 0
    (getOAuthUrl sampleReg emptyState "google" "https://app/cb").2
    (by decide) rfl).1

/-- C2 (evaluation of the code at the failing input): a callback request
whose state value 999 was never issued (the state store has no entry for
it) passes schema validation, reaches the provider, and the provider's
authorization-code exchange network call is made — and the login even
succeeds.  The claim says such a callback is rejected before any
provider network call. -/
theorem oauth_callback_unissued_state_reaches_provider :
    emptyState.oauthStates.find? (fun e => e.1 == 999) = none
      ∧ (oauthCallback sampleCfg sampleReg emptyState
          { provider := "google", code := "authcode",
            redirectUri := "https://app/cb", state := 999,
            codeVerifier := none }).2.2
        = [.exchangeCode "google" "authcode" "https://app/cb",
           .getUserInfo "google" "g-access"]
      ∧ ((oauthCallback sampleCfg sampleReg emptyState
          { provider := "google", code := "authcode",
            redirectUri := "https://app/cb", state := 999,
            codeVerifier := none }).1.isOk = true) := by
  decide

/-- Deleting every session with id `k` makes a lookup of `k` fail. -/
theorem find?_session_filter_ne (l : List Session) (k : UUID) :
    (l.filter (fun t => t.id != k)).find? (fun t => t.id == k) = none := by
  rw [List.find?_eq_none]
  intro x hx
  have h := List.mem_filter.mp hx
  simpa using (by simpa using h.2 : x.id ≠ k)

/-- A successful user resolution leaves the session store and the clock
untouched. -/
theorem resolveLoginUser_ok (st : AuthState) (au : AuthenticatedUser)
    (u : User) (st₁ : AuthState)
    (h : resolveLoginUser st au = .ok (u, st₁)) :
    st₁.sessions = st.sessions ∧ st₁.now = st.now := by
  cases hau : au.id with
  | some uid =>
    cases hfind : findUserById st uid with
    | none => simp [resolveLoginUser, hau, hfind] at h
    | some u' =>
      simp only [resolveLoginUser, hau, hfind, Except.ok.injEq,
        Prod.mk.injEq] at h
      obtain ⟨-, h2⟩ := h
      rw [← h2]
      exact ⟨rfl, rfl⟩
  | none =>
    cases hfind : findUserByEmail st au.email with
    | some u' =>
      simp only [resolveLoginUser, hau, hfind, Except.ok.injEq,
        Prod.mk.injEq] at h
      obtain ⟨-, h2⟩ := h
      rw [← h2]
      exact ⟨rfl, rfl⟩
    | none =>
      simp only [resolveLoginUser, hau, hfind, Except.ok.injEq,
        Prod.mk.injEq] at h
      obtain ⟨-, h2⟩ := h
      rw [← h2]
      simp [createUser]

/-- Characterization of a successful `createOrUpdateUserSession` run:
the returned session is freshly created with no roles or permissions
(in the stored record and inside the signed access token), and the final
store holds exactly the user's new session next to the other users'
sessions. -/
theorem createOrUpdate_ok_inv (cfg : JWTConfig) (st : AuthState)
    (au : AuthenticatedUser) (r : AuthResult) (st' : AuthState)
    (h : createOrUpdateUserSession cfg st au = (.ok r, st')) :
    ∃ s : Session,
      r.session = sessionToJSON s
        ∧ s.roles = [] ∧ s.permissions = []
        ∧ tokenRoles s.accessToken = some []
        ∧ tokenPermissions s.accessToken = some []
        ∧ st'.sessions
          = st.sessions.filter (fun t => t.userId != s.userId) ++ [s] := by
  cases hres : resolveLoginUser st au with
  | error e => simp [createOrUpdateUserSession, hres] at h
  | ok p =>
    obtain ⟨u, st₁⟩ := p
    obtain ⟨hsess, hnow⟩ := resolveLoginUser_ok st au u st₁ hres
    simp only [createOrUpdateUserSession, hres, Prod.mk.injEq,
      Except.ok.injEq] at h
    obtain ⟨hr, hst⟩ := h
    refine ⟨(createSession cfg (invalidateAllUserSessions st₁ u.id)
      { userId := u.id, email := u.email, roles := none, permissions := none,
        metadata := some (loginSessionMetadata au) }).1,
      ?_, rfl, rfl, rfl, rfl, ?_⟩
    · rw [← hr]
    · rw [← hst]
      show (invalidateAllUserSessions st₁ u.id).sessions ++ [_] = _
      rw [show (invalidateAllUserSessions st₁ u.id).sessions
          = st₁.sessions.filter (fun t => t.userId != u.id) from rfl, hsess]
      rfl

/-- A successful generic `login` run is a successful
`createOrUpdateUserSession` run for the identity the provider
returned. -/
theorem login_ok_inv (cfg : JWTConfig) (reg : Registry) (st : AuthState)
    (dto : LoginDTO) (r : AuthResult) (st' : AuthState)
    (calls : List NetCall)
    (h : login cfg reg st dto = (.ok r, st', calls)) :
    ∃ au, createOrUpdateUserSession cfg st au = (.ok r, st') := by
  cases hreg : registryGet reg dto.method with
  | none => simp [login, hreg] at h
  | some p =>
    rcases hauth : p.authenticate dto.credentials with ⟨res, pcalls⟩
    cases res with
    | error e =>
      simp only [login, hreg, hauth] at h
      split_ifs at h <;> simp at h
    | ok au =>
      rcases hcu : createOrUpdateUserSession cfg st au with ⟨cres, cst⟩
      cases cres with
      | error err =>
        simp only [login, hreg, hauth, hcu] at h
        split_ifs at h <;> simp at h
      | ok r' =>
        simp only [login, hreg, hauth, hcu, Prod.mk.injEq,
          Except.ok.injEq] at h
        obtain ⟨h1, h2, -⟩ := h
        exact ⟨au, by rw [hcu, h1, h2]⟩

/-- C3: For every successful login (any method dispatched through the
provider registry, including email/password and OAuth), all sessions
that existed for the resolved user before the call are invalidated
before the new session is created, so immediately after a successful
login the user's only stored session is the one returned by that
login. -/
theorem login_single_session (cfg : JWTConfig) (reg : Registry)
    (st : AuthState) (dto : LoginDTO) (r : AuthResult) (st' : AuthState)
    (calls : List NetCall)
    (h : login cfg reg st dto = (.ok r, st', calls)) :
    ∃ s : Session,
      st'.sessions.filter (fun t => t.userId == r.session.userId) = [s]
        ∧ sessionToJSON s = r.session := by
  obtain ⟨au, hcu⟩ := login_ok_inv cfg reg st dto r st' calls h
  obtain ⟨s, hjson, -, -, -, -, hsess⟩ :=
    createOrUpdate_ok_inv cfg st au r st' hcu
  have huid : r.session.userId = s.userId := by rw [hjson]; rfl
  refine ⟨s, ?_, hjson.symm⟩
  rw [hsess, List.filter_append]
  have h1 : (st.sessions.filter (fun t => t.userId != s.userId)).filter
      (fun t => t.userId == r.session.userId) = [] := by
    apply List.filter_eq_nil_iff.mpr
    intro a ha
    have h2 := (List.mem_filter.mp ha).2
    rw [huid]
    simpa using (by simpa using h2 : a.userId ≠ s.userId)
  have h3 : [s].filter (fun t => t.userId == r.session.userId) = [s] := by
    simp [huid]
  rw [h1, h3]
  rfl

/-- Witness for `login_single_session`: after a concrete email/password
login on a state where user 1 already holds a session, user 1 holds
exactly one session. -/
theorem login_single_session_witness :
    ((login sampleCfg fixtureReg seededState sampleLoginDto).2.1.sessions.filter
      (fun t => t.userId == 1)).length = 1 := by
  obtain ⟨s, hs, -⟩ :=
    login_single_session sampleCfg fixtureReg seededState sampleLoginDto
      _ _ _ rfl
  exact congrArg List.length hs

/-- C10 (implicit): every session created through the generic login path
(any provider, including email/password) is created without roles or
permissions — the orchestrator forwards only metadata to
`createSession`, so the stored session and its signed access token
always carry empty roles and permissions lists, even if the user's
earlier sessions had non-empty ones. -/
theorem login_session_no_roles (cfg : JWTConfig) (reg : Registry)
    (st : AuthState) (dto : LoginDTO) (r : AuthResult) (st' : AuthState)
    (calls : List NetCall)
    (h : login cfg reg st dto = (.ok r, st', calls)) :
    ∃ s : Session,
      st'.sessions = st.sessions.filter (fun t => t.userId != s.userId) ++ [s]
        ∧ sessionToJSON s = r.session
        ∧ s.roles = [] ∧ s.permissions = []
        ∧ tokenRoles s.accessToken = some []
        ∧ tokenPermissions s.accessToken = some [] := by
  obtain ⟨au, hcu⟩ := login_ok_inv cfg reg st dto r st' calls h
  obtain ⟨s, hjson, hr, hp, htr, htp, hsess⟩ :=
    createOrUpdate_ok_inv cfg st au r st' hcu
  exact ⟨s, hsess, hjson.symm, hr, hp, htr, htp⟩

/-- Witness for `login_session_no_roles`: the session stored by a
concrete login — on a state whose prior session for the user carried
roles ["user"] and permissions ["read"] — has empty roles and
permissions, in the record and inside its access token. -/
theorem login_session_no_roles_witness :
    ((login sampleCfg fixtureReg seededState sampleLoginDto).2.1.sessions.getLast?).map
        (fun s => (s.roles, s.permissions, tokenRoles s.accessToken,
          tokenPermissions s.accessToken))
      = some ([], [], some [], some []) := by
  obtain ⟨s, hsess, -, hr, hp, htr, htp⟩ :=
    login_session_no_roles sampleCfg fixtureReg seededState sampleLoginDto
      _ _ _ rfl
  have h0 : (login sampleCfg fixtureReg seededState sampleLoginDto).2.1.sessions
      = seededState.sessions.filter (fun t => t.userId != s.userId) ++ [s] :=
    hsess
  rw [h0]
  simp [hr, hp, htr, htp]

/-- C4: For every user id, after `logoutAll(userId)` completes,
`getSessionsByUserId(userId)` returns an empty list, and every access
token whose session belonged to that user fails `validateAccessToken`
(returns `valid = false`) even if the token is cryptographically valid
and unexpired, because `validateAccessToken` additionally requires the
token's session to still exist in the store. -/
theorem logoutAll_invalidates (cfg : JWTConfig) (st : AuthState)
    (uid : UUID) :
    getSessionsByUserId (logoutAll st uid) uid = []
      ∧ ∀ tok claims, verifyAccessToken cfg st.now tok = some claims →
          (∀ s ∈ st.sessions, s.id = claims.sessionId → s.userId = uid) →
          (validateAccessToken cfg (logoutAll st uid) tok).valid = false := by
  constructor
  · show (st.sessions.filter (fun t => t.userId != uid)).filter
      (fun t => t.userId == uid) = []
    apply List.filter_eq_nil_iff.mpr
    intro a ha
    have h2 := (List.mem_filter.mp ha).2
    simpa using (by simpa using h2 : a.userId ≠ uid)
  · intro tok claims hver hown
    have hver' : verifyAccessToken cfg (logoutAll st uid).now tok
        = some claims := hver
    have hnone : getSessionById (logoutAll st uid) claims.sessionId = none := by
      show (st.sessions.filter (fun t => t.userId != uid)).find?
        (fun t => t.id == claims.sessionId) = none
      rw [List.find?_eq_none]
      intro x hx
      have hx' := List.mem_filter.mp hx
      intro hbeq
      have hid : x.id = claims.sessionId := by simpa using hbeq
      have huid := hown x hx'.1 hid
      have h2 := hx'.2
      rw [huid] at h2
      simp at h2
    simp only [validateAccessToken, hver', hnone]

/-- Witness for `logoutAll_invalidates`: after logging user 1 out
everywhere, the access token of the session it held — still
cryptographically valid and unexpired — is rejected. -/
theorem logoutAll_invalidates_witness :
    (validateAccessToken sampleCfg loggedOutState
      seededSession.accessToken).valid = false :=
  (logoutAll_invalidates sampleCfg seededState 1).2 seededSession.accessToken
    { sub := 1, email := "a@x.com", sessionId := 10, roles := ["user"],
      permissions := ["read"], metadata := [], type := .access,
      iss := "authn-service", aud := "authn-api", iat := 1000, exp := 1900,
      nbf := 1000, jti := 11 }
    (by decide) (by decide)

/-- C9 (implicit): `getMe` performs no session-existence check — for
every access token that verifies cryptographically and is unexpired,
`getMe` returns the user looked up by the token's subject even if the
token's session has already been invalidated (for example by `logout`
or `logoutAll`), in contrast to `validateAccessToken`, which rejects
such a token. -/
theorem getMe_no_session_check (cfg : JWTConfig) (st : AuthState)
    (tok : Token) (claims : JWTClaims)
    (hver : verifyAccessToken cfg st.now tok = some claims)
    (hnosess : ∀ s ∈ st.sessions, s.id ≠ claims.sessionId) :
    getMe cfg st tok = findUserById st claims.sub
      ∧ (validateAccessToken cfg st tok).valid = false := by
  have hnone : getSessionById st claims.sessionId = none := by
    rw [getSessionById, List.find?_eq_none]
    intro x hx
    simpa using hnosess x hx
  constructor
  · simp only [getMe, hver]
  · simp only [validateAccessToken, hver, hnone]

/-- Witness for `getMe_no_session_check`: after `logoutAll`, the same
token that `validateAccessToken` now rejects still drives `getMe` to the
user lookup. -/
theorem getMe_no_session_check_witness :
    getMe sampleCfg loggedOutState seededSession.accessToken
      = findUserById loggedOutState 1 :=
  (getMe_no_session_check sampleCfg loggedOutState seededSession.accessToken
    { sub := 1, email := "a@x.com", sessionId := 10, roles := ["user"],
      permissions := ["read"], metadata := [], type := .access,
      iss := "authn-service", aud := "authn-api", iat := 1000, exp := 1900,
      nbf := 1000, jti := 11 }
    (by decide) (by decide)).1

/-- C5: For every stored session s (in a well-formed state),
`refreshSession(s)` returns a session whose id differs from `s.id` and
whose access and refresh token strings differ from those of s, and after
the call the old id is no longer retrievable (`getSessionById(s.id)`
returns none); consequently calling `refreshToken` twice with the same
refresh token makes the second call fail with `SessionNotFound`. -/
theorem refreshSession_rotates (cfg : JWTConfig) (st : AuthState)
    (s : Session) (hWF : WF st = true) (hs : s ∈ st.sessions) :
    (refreshSession cfg st s).1.id ≠ s.id
      ∧ (refreshSession cfg st s).1.accessToken ≠ s.accessToken
      ∧ (refreshSession cfg st s).1.refreshToken ≠ s.refreshToken
      ∧ getSessionById (refreshSession cfg st s).2 s.id = none
      ∧ ∀ tok r st₁, refreshToken cfg st tok = (.ok r, st₁) →
          (refreshToken cfg st₁ tok).1 = .error .sessionNotFound := by
  have hall : ∀ t ∈ st.sessions, sessionFreshBelow t st.nextUuid = true := by
    simp only [WF, Bool.and_eq_true, List.all_eq_true] at hWF
    exact hWF.1.1
  have hfresh := hall s hs
  simp only [sessionFreshBelow, Bool.and_eq_true, decide_eq_true_eq] at hfresh
  obtain ⟨⟨hid, hat⟩, hrt⟩ := hfresh
  refine ⟨?_, ?_, ?_, ?_, ?_⟩
  · show st.nextUuid ≠ s.id
    exact (Nat.ne_of_lt hid).symm
  · show Token.signed _ _ ≠ s.accessToken
    cases hcase : s.accessToken with
    | malformed str => simp
    | signed p sec =>
      rw [hcase] at hat
      simp only [tokenFreshBelow] at hat
      intro heq
      simp only [Token.signed.injEq] at heq
      obtain ⟨hp, -⟩ := heq
      have hj : p.jti = st.nextUuid + 1 := by
        have h6 := congrArg JWTPayload.jti hp
        simpa [invalidateSession] using h6.symm
      rw [hj] at hat
      simp at hat
  · show Token.signed _ _ ≠ s.refreshToken
    cases hcase : s.refreshToken with
    | malformed str => simp
    | signed p sec =>
      rw [hcase] at hrt
      simp only [tokenFreshBelow] at hrt
      intro heq
      simp only [Token.signed.injEq] at heq
      obtain ⟨hp, -⟩ := heq
      have hj : p.jti = st.nextUuid + 2 := by
        have h6 := congrArg JWTPayload.jti hp
        simpa [invalidateSession] using h6.symm
      rw [hj] at hrt
      simp at hrt
  · show ((st.sessions.filter (fun t : Session => t.id != s.id)) ++ [_]).find?
      (fun t : Session => t.id == s.id) = none
    rw [List.find?_append, find?_session_filter_ne]
    simp only [Option.none_or]
    rw [List.find?_singleton]
    simp
    exact (Nat.ne_of_lt hid).symm
  · intro tok r st₁ hrun
    cases hv : verifyRefreshToken cfg st.now tok with
    | none => simp [refreshToken, hv] at hrun
    | some c =>
      cases hsid : getSessionById st c.sessionId with
      | none => simp [refreshToken, hv, hsid] at hrun
      | some sess =>
        cases huser : findUserById st c.sub with
        | none => simp [refreshToken, hv, hsid, huser] at hrun
        | some user =>
          simp only [refreshToken, hv, hsid, huser, Prod.mk.injEq,
            Except.ok.injEq] at hrun
          obtain ⟨-, hst₁⟩ := hrun
          have hmem : sess ∈ st.sessions := List.mem_of_find?_eq_some hsid
          have hsessid : sess.id = c.sessionId := by
            have h4 := List.find?_some hsid
            simpa using h4
          have hlt : sess.id < st.nextUuid := by
            have h5 := hall sess hmem
            simp only [sessionFreshBelow, Bool.and_eq_true,
              decide_eq_true_eq] at h5
            exact h5.1.1
          have hv2 : verifyRefreshToken cfg st₁.now tok = some c := by
            rw [← hst₁]
            exact hv
          have hsid2 : getSessionById st₁ c.sessionId = none := by
            rw [← hst₁]
            show ((st.sessions.filter
                (fun t : Session => t.id != sess.id)) ++ [_]).find?
              (fun t : Session => t.id == c.sessionId) = none
            rw [← hsessid, List.find?_append, find?_session_filter_ne]
            simp only [Option.none_or]
            rw [List.find?_singleton]
            simp
            exact (Nat.ne_of_lt hlt).symm
          simp only [refreshToken, hv2, hsid2]

/-- Witness for `refreshSession_rotates`: rotating the concrete seeded
session yields a new session id. -/
theorem refreshSession_rotates_witness :
    (refreshSession sampleCfg seededState seededSession).1.id
      ≠ seededSession.id :=
  (refreshSession_rotates sampleCfg seededState seededSession
    (by decide) (by decide)).1

end AuthN
